import Mathlib

/-!
Verification of the interactive execution engine of the SIREN collaborative
editor (source files app.py and aappp.py).  Every definition below is a
shallow embedding of a concrete piece of the Python source; the comments name
the file and line range it is translated from.
-/

namespace Sciam

/-! ### Interactive-input classifier (app.py lines 86-95, aappp.py line 69)

app.py builds `cleaned` by three successive `re.sub` passes
(triple-quoted strings, single/double-quoted strings, `#` line comments)
and then searches the residual text for `\binput\s*\(` and `\bsys\.stdin\b`.
Each pass is modelled as a left-to-right scanner that mirrors the
leftmost, lazy (shortest-close) semantics of the non-greedy regexes.
The scanners consume at least one character of input per step, so a fuel
argument equal to the input length makes them structurally recursive. -/

/-- The double-quote character (ASCII 34). -/
def dquote : Char := Char.ofNat 34

/-- The single-quote character (ASCII 39). -/
def squote : Char := Char.ofNat 39

/-- Scan for the earliest occurrence of the closing quote `q`; return the
remainder after it (lazy `.*?q`, with `.` matching newlines as under
`re.S`); `none` when no close exists, in which case the regex pass moves
on by one character. -/
def dropPast (q : Char) : List Char → Option (List Char)
  | [] => none
  | c :: rest => if c == q then some rest else dropPast q rest

/-- Scan for the earliest occurrence of a triple quote `qqq`; return the
remainder after it. -/
def dropPastTriple (q : Char) : List Char → Option (List Char)
  | [] => none
  | c :: rest =>
    if c == q && List.isPrefixOf [q, q] rest then some (rest.drop 2)
    else dropPastTriple q rest

/-- One fuelled pass of `re.sub(r'(""".*?"""|\x27\x27\x27.*?\x27\x27\x27)', '', s, flags=re.S)`
(app.py line 89): delete every lazily matched triple-quoted span,
scanning left to right. -/
def stripTripleF : Nat → List Char → List Char
  | 0, l => l
  | _ + 1, [] => []
  | fuel + 1, c :: rest =>
    if (c == dquote && List.isPrefixOf [dquote, dquote] rest)
        || (c == squote && List.isPrefixOf [squote, squote] rest) then
      match dropPastTriple c (rest.drop 2) with
      | some r2 => stripTripleF fuel r2
      | none => c :: stripTripleF fuel rest
    else c :: stripTripleF fuel rest

/-- `re.sub` pass removing triple-quoted strings (app.py line 89). -/
def stripTriple (l : List Char) : List Char := stripTripleF l.length l

/-- One fuelled pass of `re.sub(r'(".*?"|\x27.*?\x27)', '', s, flags=re.S)`
(app.py line 90): delete every lazily matched quoted span. -/
def stripQuotedF : Nat → List Char → List Char
  | 0, l => l
  | _ + 1, [] => []
  | fuel + 1, c :: rest =>
    if c == dquote || c == squote then
      match dropPast c rest with
      | some r2 => stripQuotedF fuel r2
      | none => c :: stripQuotedF fuel rest
    else c :: stripQuotedF fuel rest

/-- `re.sub` pass removing single/double-quoted strings (app.py line 90). -/
def stripQuoted (l : List Char) : List Char := stripQuotedF l.length l

/-- Skip to the end of the current line, keeping the newline itself
(the regex `#.*` has no `re.S` flag, so `.` stops at a newline). -/
def dropToEol : List Char → List Char
  | [] => []
  | c :: rest => if c == '\n' then c :: rest else dropToEol rest

/-- One fuelled pass of `re.sub(r'#.*', '', s)` (app.py line 91): delete
from each `#` to the end of its line. -/
def stripLineCommentsF : Nat → List Char → List Char
  | 0, l => l
  | _ + 1, [] => []
  | fuel + 1, c :: rest =>
    if c == '#' then stripLineCommentsF fuel (dropToEol rest)
    else c :: stripLineCommentsF fuel rest

/-- `re.sub` pass removing `#` line comments (app.py line 91). -/
def stripLineComments (l : List Char) : List Char := stripLineCommentsF l.length l

/-- `_strip_strings_and_comments` (app.py lines 88-92): triple-quoted
strings first, then single/double-quoted strings, then line comments. -/
def stripStringsAndComments (l : List Char) : List Char :=
  stripLineComments (stripQuoted (stripTriple l))

/-- Python `\w` on ASCII text: letters, digits, or underscore. -/
def isWordChar (c : Char) : Bool := c.isAlphanum || c == '_'

/-- Python `\s`: space, tab, newline, carriage return, vertical tab, form feed. -/
def isSpaceChar (c : Char) : Bool :=
  c == ' ' || c == '\t' || c == '\n' || c == '\r'
    || c == Char.ofNat 11 || c == Char.ofNat 12

/-- After the literal `input`, the pattern `\s*\(` requires optional
whitespace and then an opening parenthesis. -/
def parenAfterWs : List Char → Bool
  | [] => false
  | c :: rest => if isSpaceChar c then parenAfterWs rest else c == '('

/-- The characters of the literal `input`. -/
def inputChars : List Char := "input".toList

/-- The characters of the literal `sys.stdin`. -/
def sysStdinChars : List Char := "sys.stdin".toList

/-- Does `\binput\s*\(` match at the current position?  `prevIsWord` says
whether the preceding character is a word character (so `\b` holds iff it
is false). -/
def matchInputAt (prevIsWord : Bool) (l : List Char) : Bool :=
  !prevIsWord && List.isPrefixOf inputChars l && parenAfterWs (l.drop 5)

/-- `re.search(r'\binput\s*\(', cleaned)` (app.py line 95), scanning left
to right while tracking whether the previous character was a word
character. -/
def searchInputCall (prevIsWord : Bool) : List Char → Bool
  | [] => false
  | c :: rest =>
    matchInputAt prevIsWord (c :: rest) || searchInputCall (isWordChar c) rest

/-- The trailing `\b` of `\bsys\.stdin\b`: end of text or a non-word
character. -/
def wordBoundaryAt : List Char → Bool
  | [] => true
  | c :: _ => !isWordChar c

/-- Does `\bsys\.stdin\b` match at the current position? -/
def matchStdinAt (prevIsWord : Bool) (l : List Char) : Bool :=
  !prevIsWord && List.isPrefixOf sysStdinChars l && wordBoundaryAt (l.drop 9)

/-- `re.search(r'\bsys\.stdin\b', cleaned)` (app.py line 95). -/
def searchSysStdin (prevIsWord : Bool) : List Char → Bool
  | [] => false
  | c :: rest =>
    matchStdinAt prevIsWord (c :: rest) || searchSysStdin (isWordChar c) rest

/-- `code_needs_input` as computed by app.py lines 94-95: strip strings
and comments, then search the residual text for an `input(` call form or a
`sys.stdin` access. -/
def code_needs_input (code : String) : Bool :=
  searchInputCall false (stripStringsAndComments code.toList)
    || searchSysStdin false (stripStringsAndComments code.toList)

/-- Boolean substring test, as Python `pat in code`. -/
def containsSub (pat : List Char) : List Char → Bool
  | [] => pat.isEmpty
  | c :: rest => List.isPrefixOf pat (c :: rest) || containsSub pat rest

/-- `code_needs_input = "input(" in code` as computed by aappp.py line 69:
a bare substring test on the raw source text, with no comment or string
stripping at all. -/
def aappp_code_needs_input (code : String) : Bool :=
  containsSub ("input(".toList) code.toList

/-! ### Timeout selection (app.py lines 72-73, aappp.py line 209) -/

/-- app.py lines 72-73:
`timeout_seconds = int(data.get("timeout_seconds", 120))` followed by
`timeout_seconds = max(1, min(timeout_seconds, 300))`.  `none` models a
request that does not carry the field. -/
def effectiveTimeout (submitted : Option Int) : Int :=
  max 1 (min (submitted.getD 120) 300)

/-- aappp.py line 209: `timeout = 30`.  The aappp.py handler never reads a
timeout field from the request, so the wall-clock budget is a fixed 30
seconds whatever the submission carries. -/
def aappp_effectiveTimeout (_submitted : Option Int) : Int := 30

/-! ### Process launch (app.py lines 207-246, aappp.py lines 108-116) -/

/-- The observable launch decision: the argument vector handed to
`subprocess.Popen` and which of the three standard streams are attached
as pipes (`stdin=...` vs the always-`PIPE` stdout/stderr). -/
structure LaunchSpec where
  cmd : List String
  stdinPipe : Bool
  stdoutPipe : Bool
  stderrPipe : Bool
deriving DecidableEq

/-- app.py lines 219-222: `pip_cmd` is empty unless packages were
requested, in which case a `pip install` prefix is joined in front of the
container command. -/
def pipInstallPrefix (pkgs : List String) : String :=
  if pkgs.isEmpty then ""
  else "pip install --no-cache-dir " ++ String.intercalate " " pkgs
    ++ " >/dev/null 2>&1 && "

/-- app.py lines 207-246.  `dockerRequested` is the request's `use_docker`
flag; `dockerAvailable` models `shutil.which("docker") is not None` (when
false the handler falls back to local execution, lines 209-215).  Both
command shapes attach stdout and stderr as pipes unconditionally, and
stdin as a pipe exactly when `code_needs_input` held (lines 232, 235,
238-246). -/
def buildLaunch (dockerRequested dockerAvailable codeNeedsInput : Bool)
    (pkgs : List String) (tempDir tempFilename pyExe : String) : LaunchSpec :=
  let useDocker := dockerRequested && dockerAvailable
  if useDocker then
    { cmd := ["docker", "run", "--rm", "-i", "-v", tempDir ++ ":/workspace",
        "-w", "/workspace", "python:3.11-slim", "bash", "-lc",
        pipInstallPrefix pkgs ++ "python /workspace/program.py"],
      stdinPipe := codeNeedsInput, stdoutPipe := true, stderrPipe := true }
  else
    { cmd := [pyExe, tempFilename],
      stdinPipe := codeNeedsInput, stdoutPipe := true, stderrPipe := true }

/-- aappp.py lines 108-116: always a local interpreter launch, stdin a
pipe iff `code_needs_input`, stdout and stderr always pipes. -/
def aappp_launch (codeNeedsInput : Bool) (pyExe tempFilename : String) : LaunchSpec :=
  { cmd := [pyExe, tempFilename],
    stdinPipe := codeNeedsInput, stdoutPipe := true, stderrPipe := true }

/-! ### Supervisor events (app.py lines 249-341)

The supervisor thread of `run_code_with_input` publishes, in order: one
`system` start notice (lines 250-254), an `input_received`
acknowledgment per delivered mailbox line (lines 309-311), and then an
outcome-dependent tail: on natural exit the single `code_complete`
event (lines 331-334); on timeout one `error` output naming the timeout
followed by the `code_complete` event (lines 290-300 then 331-334); and
when an exception reaches the `except` clause, one `error` output and no
completion event at all (lines 336-341). -/

/-- Kind tag of a `code_output` event (the `type` field). -/
inductive EvKind where
  | system
  | stdoutK
  | stderrK
  | errorK
deriving DecidableEq

/-- One socket event published for an execution. -/
inductive Event where
  | output : EvKind → String → Event
  | inputReceived : Event
  | complete : String → Event
deriving DecidableEq

/-- The `system` start notice of app.py lines 250-254. -/
def startupEvent : Event :=
  .output .system "🚀 Code execution started...\n"

/-- The timeout error text of app.py line 297. -/
def timeoutMessage (t : Int) : String :=
  "\n⏰ Error: Code execution timed out (" ++ toString t ++ " seconds)\n"

/-- The monitoring-exception error text of app.py line 339. -/
def execErrorMessage (e : String) : String :=
  "\n❌ Execution error: " ++ e ++ "\n"

/-- app.py line 333: the completion status is the string `completed` when
the process is observed exited with return code 0, and the string
`finished` in every other case.  `polled` is `process.poll()` at the
moment of the emit (`none` = still `None`). -/
def completionStatus (polled : Option Int) : String :=
  match polled with
  | some rc => if rc = 0 then "completed" else "finished"
  | none => "finished"

/-- How one monitored run ends, abstracting the process and the clock:
the loop observes a natural exit with some return code (app.py line 286),
the timeout branch fires and kills the process (lines 290-300, with
`polled` the `poll()` value seen later at line 333), or an exception
propagates out of the monitored region into the `except` clause (lines
336-341). -/
inductive RunObs where
  | exits : Int → RunObs
  | timesOut : Option Int → RunObs
  | raises : String → RunObs
deriving DecidableEq

/-- The supervisor's events after the monitoring loop, by outcome. -/
def monitorTail (t : Int) : RunObs → List Event
  | .exits rc => [.complete (completionStatus (some rc))]
  | .timesOut polled =>
      [.output .errorK (timeoutMessage t), .complete (completionStatus polled)]
  | .raises e => [.output .errorK (execErrorMessage e)]

/-- The full ordered event sequence the supervisor thread publishes for
one execution: start notice, `acks` input acknowledgments, then the
outcome tail. -/
def supervisorEvents (t : Int) (acks : Nat) (obs : RunObs) : List Event :=
  (startupEvent :: List.replicate acks Event.inputReceived) ++ monitorTail t obs

/-- The statuses of the `code_complete` events in a sequence, in order. -/
def completeStatuses : List Event → List String
  | [] => []
  | .complete s :: rest => s :: completeStatuses rest
  | _ :: rest => completeStatuses rest

/-- The texts of the `error`-kind output events in a sequence, in order. -/
def errorTexts : List Event → List String
  | [] => []
  | .output .errorK s :: rest => s :: errorTexts rest
  | _ :: rest => errorTexts rest

/-- Is the final event of the sequence a completion event? -/
def lastIsComplete (evs : List Event) : Bool :=
  match evs.getLast? with
  | some (.complete _) => true
  | _ => false

/-! ### Registry lifecycle (app.py lines 98-102, 238-247, 342-355)

The three global registries `running_processes`, `input_queues` and
`process_needs_input` are keyed by the execution id.  The trace below
records, for one execution id, which registries hold it after each
registration/removal statement, in the order those statements execute. -/

/-- Which of the three registries currently map the execution id. -/
structure RegState where
  hasProc : Bool
  hasQueue : Bool
  hasFlag : Bool
deriving DecidableEq

/-- Registration order at start: nothing; after
`input_queues[process_id] = queue.Queue()` (app.py line 101); after
`process_needs_input[process_id] = code_needs_input` (line 102); after
`running_processes[process_id] = process` (line 247, which runs in the
spawned thread only once `subprocess.Popen` has returned). -/
def regStartTrace : List RegState :=
  [⟨false, false, false⟩, ⟨false, true, false⟩, ⟨false, true, true⟩,
   ⟨true, true, true⟩]

/-- Removal order in the `finally` block: `del running_processes[...]`
(app.py lines 344-345), then `del input_queues[...]` (lines 346-350),
then `del process_needs_input[...]` (lines 351-355). -/
def regCleanupTrace : List RegState :=
  [⟨true, true, true⟩, ⟨false, true, true⟩, ⟨false, false, true⟩,
   ⟨false, false, false⟩]

/-- The id is mapped by all three registries or by none of them. -/
def allOrNone (s : RegState) : Bool :=
  (s.hasProc && s.hasQueue && s.hasFlag)
    || (!s.hasProc && !s.hasQueue && !s.hasFlag)

/-! ### Cleanup of one execution (app.py lines 342-369)

The `finally` block removes the registry entries (each `del` guarded by a
membership test, the last two additionally wrapped in
`try/except KeyError`), kills the process if still alive (wrapped in
`try/except`), and unlinks the temp file and removes the temp directory
(each guarded by `os.path.exists`, both wrapped in one `try/except`).
`del` on an absent key is modelled as a thrown `KeyError` so the guards
are load-bearing. -/

/-- Observable state of one execution id at cleanup time. -/
structure ExecState where
  procReg : Bool
  queueReg : Bool
  flagReg : Bool
  procAlive : Bool
  fileExists : Bool
  dirExists : Bool
  dirRemovable : Bool
  completeEvents : Nat
deriving DecidableEq

/-- Python `del d[key]`: removes the entry when present, raises
`KeyError` when absent. -/
def delReg (present : Bool) : Except String Bool :=
  if present then .ok false else .error "KeyError"

/-- `try: del d[key] except KeyError: pass` (app.py lines 346-350 and
351-355): a failed delete leaves the entry as it was. -/
def tryDel (present : Bool) : Bool :=
  match delReg present with
  | .ok b => b
  | .error _ => present

/-- The `finally` block of app.py lines 342-369, step for step.  The
first `del` is guarded only by the membership test (lines 344-345); a
`KeyError` there would escape, so it is modelled in `Except`.  `os.rmdir`
can fail on a non-empty directory; the surrounding `try/except` swallows
that, modelled by `dirRemovable`. -/
def cleanup (s : ExecState) : Except String ExecState :=
  match (if s.procReg then delReg s.procReg else .ok s.procReg) with
  | .error e => .error e
  | .ok procReg =>
    .ok { procReg := procReg
          queueReg := if s.queueReg then tryDel s.queueReg else s.queueReg
          flagReg := if s.flagReg then tryDel s.flagReg else s.flagReg
          procAlive := if s.procAlive then false else s.procAlive
          fileExists := if s.fileExists then false else s.fileExists
          dirExists :=
            if s.dirExists then (if s.dirRemovable then false else s.dirExists)
            else s.dirExists
          dirRemovable := s.dirRemovable
          completeEvents := s.completeEvents }

/-- Run the cleanup path, which never throws (theorem below); the
fallback branch is never taken. -/
def cleanupRun (s : ExecState) : ExecState :=
  match cleanup s with
  | .ok t => t
  | .error _ => s

/-! ### Input mailboxes and the HTTP handlers
(app.py lines 63-122 and 372-385) -/

/-- The `input_queues` registry: execution id to pending lines, FIFO. -/
abbrev Mailboxes := List (String × List String)

/-- `process_id in input_queues`. -/
def hasBox (qs : Mailboxes) (pid : String) : Bool :=
  qs.any fun kv => kv.1 == pid

/-- `input_queues[process_id].put(line)`: append to the FIFO of the named
id, leaving every other entry untouched. -/
def pushBox (qs : Mailboxes) (pid line : String) : Mailboxes :=
  match qs with
  | [] => []
  | kv :: rest =>
    if kv.1 == pid then (kv.1, kv.2 ++ [line]) :: rest
    else kv :: pushBox rest pid line

/-- The mailbox registered for an id, if any. -/
def boxOf (qs : Mailboxes) (pid : String) : Option (List String) :=
  match qs with
  | [] => none
  | kv :: rest => if kv.1 == pid then some kv.2 else boxOf rest pid

/-- A JSON reply: its `status` and `message` fields. -/
structure ApiResponse where
  status : String
  message : String
deriving DecidableEq

/-- The input-feed branch of `run_code` (app.py lines 78-83), entered when
the request carries a truthy `process_id` and `user_input`: enqueue
`user_input + "\n"` and reply `input_sent` when the mailbox exists,
otherwise reply an error. -/
def feedViaRunCode (qs : Mailboxes) (pid userInput : String) :
    ApiResponse × Mailboxes :=
  if hasBox qs pid then
    ({ status := "input_sent", message := "Input sent to process" },
      pushBox qs pid (userInput ++ "\n"))
  else
    ({ status := "error", message := "Process not found or completed" }, qs)

/-- The `/provide_input` endpoint (app.py lines 372-385): reject when
`process_id` or `user_input` is falsy (missing or empty); otherwise
enqueue `user_input + "\n"` and reply status `success`, or an error when
no mailbox is registered. -/
def provide_input (qs : Mailboxes) (pid? : Option String) (userInput : String) :
    ApiResponse × Mailboxes :=
  if pid?.getD "" = "" ∨ userInput = "" then
    ({ status := "error", message := "Process ID and input are required" }, qs)
  else if hasBox qs (pid?.getD "") then
    ({ status := "success", message := "Input sent to process" },
      pushBox qs (pid?.getD "") (userInput ++ "\n"))
  else
    ({ status := "error", message := "Process not found or completed" }, qs)

/-- The shared registries touched by the `/run_code` handler. -/
structure ServerState where
  queues : Mailboxes
  procs : List String
  flags : List (String × Bool)
deriving DecidableEq

/-- A `/run_code` request body (app.py lines 65-75). -/
structure RunCodeRequest where
  code : String
  pid? : Option String
  userInput : String
  timeoutSeconds : Option Int
  useDocker : Bool
deriving DecidableEq

/-- What the handler did: replied to an input feed, or accepted a new
execution (returning the fresh id, the classifier verdict and the
effective timeout) and spawned a supervisor thread for it. -/
inductive RunCodeOutcome where
  | fed : ApiResponse → RunCodeOutcome
  | started : String → Bool → Int → RunCodeOutcome
deriving DecidableEq

/-- The `/run_code` handler (app.py lines 63-122).  When the request
carries a truthy `process_id` and `user_input` it is handled by the feed
branch (lines 78-83) and returns at once.  Otherwise a fresh id is
allocated, a mailbox and needs-input flag are registered (lines 98-102),
and the supervisor thread is spawned; `running_processes` is not touched
by the handler itself (that happens inside the thread at line 247). -/
def run_code (st : ServerState) (freshPid : String) (req : RunCodeRequest) :
    RunCodeOutcome × ServerState :=
  if req.pid?.getD "" ≠ "" ∧ req.userInput ≠ "" then
    let r := feedViaRunCode st.queues (req.pid?.getD "") req.userInput
    (.fed r.1, { st with queues := r.2 })
  else
    let cni := code_needs_input req.code
    (.started freshPid cni (effectiveTimeout req.timeoutSeconds),
      { queues := st.queues ++ [(freshPid, [])], procs := st.procs,
        flags := st.flags ++ [(freshPid, cni)] })

/-! ## Theorems -/

/-- A positive `\binput\s*\(` search verdict is witnessed by a literal
`input` substring of the searched text. -/
theorem searchInputCall_containsSub (l : List Char) :
    ∀ b, searchInputCall b l = true → containsSub inputChars l = true := by
  induction l with
  | nil => intro b h; simp [searchInputCall] at h
  | cons c rest ih =>
    intro b h
    simp only [searchInputCall, Bool.or_eq_true] at h
    simp only [containsSub, Bool.or_eq_true]
    rcases h with hm | hs
    · left
      revert hm
      unfold matchInputAt
      cases hpre : List.isPrefixOf inputChars (c :: rest) <;> simp
    · right; exact ih _ hs

/-- A positive `\bsys\.stdin\b` search verdict is witnessed by a literal
`sys.stdin` substring of the searched text. -/
theorem searchSysStdin_containsSub (l : List Char) :
    ∀ b, searchSysStdin b l = true → containsSub sysStdinChars l = true := by
  induction l with
  | nil => intro b h; simp [searchSysStdin] at h
  | cons c rest ih =>
    intro b h
    simp only [searchSysStdin, Bool.or_eq_true] at h
    simp only [containsSub, Bool.or_eq_true]
    rcases h with hm | hs
    · left
      revert hm
      unfold matchStdinAt
      cases hpre : List.isPrefixOf sysStdinChars (c :: rest) <;> simp
    · right; exact ih _ hs

/-- Claim C5 (amended): app.py's classifier strips comments and string
literals first and only tests the residual text, so a positive verdict is
always witnessed by a literal `input` or `sys.stdin` occurrence in the
stripped residual (contrapositive: a source whose residual carries no
such occurrence is classified `false`).  The claim as frozen fails for
the aappp.py variant, whose classifier tests the raw text (see the
counterexample). -/
theorem C5_app_classifier_tests_residual (s : String)
    (h : code_needs_input s = true) :
    containsSub inputChars (stripStringsAndComments s.toList) = true
      ∨ containsSub sysStdinChars (stripStringsAndComments s.toList) = true := by
  simp only [code_needs_input, Bool.or_eq_true] at h
  rcases h with h1 | h2
  · exact Or.inl (searchInputCall_containsSub _ _ h1)
  · exact Or.inr (searchSysStdin_containsSub _ _ h2)

/-- Witness for C5: a source that really calls `input()` is classified
`true`, and the match is witnessed in the stripped residual. -/
theorem C5_app_classifier_tests_residual_witness :
    code_needs_input ("x = input()") = true ∧
    (containsSub inputChars (stripStringsAndComments ("x = input()").toList) = true
      ∨ containsSub sysStdinChars (stripStringsAndComments ("x = input()").toList) = true) :=
  ⟨by decide, C5_app_classifier_tests_residual ("x = input()") (by decide)⟩

/-- Counterexample for C5 as frozen: on a source whose only `input(`
occurrence sits inside a recognized string literal, the aappp.py
classifier (a bare substring test, aappp.py line 69) returns `true`,
while the app.py classifier returns `false`.  The claim's universal
statement over the repository's classifier therefore fails. -/
theorem C5_counterexample :
    aappp_code_needs_input ("print(\"input()\")") = true ∧
    code_needs_input ("print(\"input()\")") = false := by
  exact ⟨by decide, by decide⟩

/-- `completeStatuses` distributes over append. -/
theorem completeStatuses_append (l1 l2 : List Event) :
    completeStatuses (l1 ++ l2) = completeStatuses l1 ++ completeStatuses l2 := by
  induction l1 with
  | nil => rfl
  | cons e rest ih =>
    cases e with
    | output k s => simp [completeStatuses, ih]
    | inputReceived => simp [completeStatuses, ih]
    | complete s => simp [completeStatuses, ih]

/-- Input acknowledgments contribute no completion status. -/
theorem completeStatuses_replicate (n : Nat) :
    completeStatuses (List.replicate n Event.inputReceived) = [] := by
  induction n with
  | zero => rfl
  | succ k ih => simpa [List.replicate_succ, completeStatuses] using ih

/-- `errorTexts` distributes over append. -/
theorem errorTexts_append (l1 l2 : List Event) :
    errorTexts (l1 ++ l2) = errorTexts l1 ++ errorTexts l2 := by
  induction l1 with
  | nil => rfl
  | cons e rest ih =>
    cases e with
    | output k s => cases k <;> simp [errorTexts, ih]
    | inputReceived => simp [errorTexts, ih]
    | complete s => simp [errorTexts, ih]

/-- Input acknowledgments contribute no error text. -/
theorem errorTexts_replicate (n : Nat) :
    errorTexts (List.replicate n Event.inputReceived) = [] := by
  induction n with
  | zero => rfl
  | succ k ih => simpa [List.replicate_succ, errorTexts] using ih

/-- The completion statuses of a supervised run are exactly those of the
outcome tail: the start notice and the acknowledgments contribute none. -/
theorem completeStatuses_supervisorEvents (t : Int) (acks : Nat) (obs : RunObs) :
    completeStatuses (supervisorEvents t acks obs)
      = completeStatuses (monitorTail t obs) := by
  simp [supervisorEvents, completeStatuses_append, completeStatuses,
    completeStatuses_replicate, startupEvent]

/-- The error texts of a supervised run are exactly those of the outcome
tail. -/
theorem errorTexts_supervisorEvents (t : Int) (acks : Nat) (obs : RunObs) :
    errorTexts (supervisorEvents t acks obs) = errorTexts (monitorTail t obs) := by
  simp [supervisorEvents, errorTexts_append, errorTexts,
    errorTexts_replicate, startupEvent]

/-- The last supervisor event is the last event of the outcome tail. -/
theorem getLast?_supervisorEvents (t : Int) (acks : Nat) (obs : RunObs)
    (h : monitorTail t obs ≠ []) :
    (supervisorEvents t acks obs).getLast? = (monitorTail t obs).getLast? := by
  simp only [supervisorEvents]
  exact List.getLast?_append_of_ne_nil _ h

/-- The completion status string emitted at app.py line 333 is always
`completed` or `finished`. -/
theorem completionStatus_mem (polled : Option Int) :
    completionStatus polled = "completed" ∨ completionStatus polled = "finished" := by
  match polled with
  | none => exact Or.inr rfl
  | some rc =>
    by_cases h : rc = 0
    · exact Or.inl (by simp [completionStatus, h])
    · exact Or.inr (by simp [completionStatus, h])

/-- Claim C1 (amended): the supervisor of app.py publishes exactly one
completion event when the monitoring loop ends by natural exit or by the
timeout branch, it is the last event of the supervisor's sequence, and
its status is drawn from the set of strings `completed` and `finished`
(never `timed_out` or `failed`, which do not occur in the code); the
timeout branch additionally publishes exactly one `error`-kind event
carrying the timed-out message; and when an exception reaches the except
clause no completion event is published at all. -/
theorem C1_completion_discipline (t : Int) (acks : Nat) (obs : RunObs) :
    (∀ e, obs = .raises e →
        completeStatuses (supervisorEvents t acks obs) = []) ∧
    (∀ rc, obs = .exits rc →
        completeStatuses (supervisorEvents t acks obs)
            = [completionStatus (some rc)] ∧
        (completionStatus (some rc) = "completed"
            ∨ completionStatus (some rc) = "finished") ∧
        lastIsComplete (supervisorEvents t acks obs) = true ∧
        errorTexts (supervisorEvents t acks obs) = []) ∧
    (∀ p, obs = .timesOut p →
        completeStatuses (supervisorEvents t acks obs) = [completionStatus p] ∧
        (completionStatus p = "completed" ∨ completionStatus p = "finished") ∧
        errorTexts (supervisorEvents t acks obs) = [timeoutMessage t] ∧
        lastIsComplete (supervisorEvents t acks obs) = true) := by
  refine ⟨?_, ?_, ?_⟩
  · intro e he; subst he
    simp [completeStatuses_supervisorEvents, monitorTail, completeStatuses,
      completeStatuses_append, completeStatuses_replicate]
  · intro rc he; subst he
    refine ⟨?_, completionStatus_mem _, ?_, ?_⟩
    · simp [completeStatuses_supervisorEvents, monitorTail, completeStatuses,
      completeStatuses_append, completeStatuses_replicate]
    · have hg := getLast?_supervisorEvents t acks (.exits rc) (by simp [monitorTail])
      simp [lastIsComplete, hg, monitorTail]
    · simp [errorTexts_supervisorEvents, monitorTail, errorTexts,
      errorTexts_append, errorTexts_replicate]
  · intro p he; subst he
    refine ⟨?_, completionStatus_mem _, ?_, ?_⟩
    · simp [completeStatuses_supervisorEvents, monitorTail, completeStatuses,
      completeStatuses_append, completeStatuses_replicate]
    · simp [errorTexts_supervisorEvents, monitorTail, errorTexts,
      errorTexts_append, errorTexts_replicate]
    · have hg := getLast?_supervisorEvents t acks (.timesOut p) (by simp [monitorTail])
      simp [lastIsComplete, hg, monitorTail]

/-- Witness for C1: a run that exits naturally with code 0 publishes the
single completion status `completed`, last. -/
theorem C1_completion_discipline_witness :
    completeStatuses (supervisorEvents 120 1 (.exits 0))
        = [completionStatus (some 0)] ∧
    (completionStatus (some 0) = "completed"
        ∨ completionStatus (some 0) = "finished") ∧
    lastIsComplete (supervisorEvents 120 1 (.exits 0)) = true ∧
    errorTexts (supervisorEvents 120 1 (.exits 0)) = [] :=
  (C1_completion_discipline 120 1 (.exits 0)).2.1 0 rfl

/-- Counterexample for C1 as frozen: an execution killed by the timeout
branch gets a completion event with status `finished` (app.py line 333
only ever produces `completed` or `finished`), not `timed_out`, and
`finished` is not in the claimed status set at all. -/
theorem C1_counterexample :
    completeStatuses (supervisorEvents 120 0 (.timesOut (some (-9))))
        = ["finished"] ∧
    errorTexts (supervisorEvents 120 0 (.timesOut (some (-9))))
        = [timeoutMessage 120] ∧
    ("finished" : String) ≠ "timed_out" ∧
    ("finished" : String) ≠ "completed" ∧
    ("finished" : String) ≠ "failed" := by
  refine ⟨by decide, by decide, by decide, by decide, by decide⟩

/-- Claim C2 (amended): an uncaught exception during monitoring is
converted by the except clause (app.py lines 336-341) into exactly one
`error`-kind output event carrying the exception text, published as the
supervisor's final event — it does not escape — but, contrary to the
frozen claim, no completion event is published on this path. -/
theorem C2_exception_reporting (t : Int) (acks : Nat) (e : String) :
    errorTexts (supervisorEvents t acks (.raises e)) = [execErrorMessage e] ∧
    completeStatuses (supervisorEvents t acks (.raises e)) = [] ∧
    (supervisorEvents t acks (.raises e)).getLast?
        = some (.output .errorK (execErrorMessage e)) := by
  refine ⟨?_, ?_, ?_⟩
  · simp [errorTexts_supervisorEvents, monitorTail, errorTexts,
      errorTexts_append, errorTexts_replicate]
  · simp [completeStatuses_supervisorEvents, monitorTail, completeStatuses,
      completeStatuses_append, completeStatuses_replicate]
  · have hg := getLast?_supervisorEvents t acks (.raises e) (by simp [monitorTail])
    simp [hg, monitorTail]

/-- Counterexample for C2 as frozen: on the exception path the supervisor
publishes no completion event whatsoever (so in particular none with
status `failed`). -/
theorem C2_counterexample :
    completeStatuses (supervisorEvents 120 0 (.raises ("boom"))) = [] ∧
    errorTexts (supervisorEvents 120 0 (.raises ("boom")))
        = [execErrorMessage ("boom")] ∧
    lastIsComplete (supervisorEvents 120 0 (.raises ("boom"))) = false := by
  refine ⟨by decide, by decide, by decide⟩

/-- Counterexample for C3 as frozen: after
`input_queues[process_id] = queue.Queue()` and
`process_needs_input[process_id] = code_needs_input` (app.py lines
101-102) but before the spawned thread reaches
`running_processes[process_id] = process` (line 247), the id is mapped by
two of the three registries and not the third — an observable state,
since the handler has already returned and other requests run
concurrently. -/
theorem C3_counterexample :
    (regStartTrace.any fun s => !allOrNone s) = true ∧
    RegState.mk false true true ∈ regStartTrace ∧
    allOrNone (RegState.mk false true true) = false := by
  refine ⟨by decide, by decide, by decide⟩

/-- Claim C3 (amended): the triple is not created atomically — the
mailbox and needs-input flag are registered by the handler and the
process handle only later by the spawned thread, and cleanup removes the
three sequentially — but every observable state of the lifecycle
satisfies the weaker invariant that whenever the process handle is
registered, the mailbox and the flag are registered too; the start path
ends with all three present and the cleanup path ends with none. -/
theorem C3_registration_invariant :
    ((regStartTrace ++ regCleanupTrace).all
        fun s => !s.hasProc || (s.hasQueue && s.hasFlag)) = true ∧
    regStartTrace.getLast? = some (RegState.mk true true true) ∧
    regCleanupTrace.getLast? = some (RegState.mk false false false) ∧
    regStartTrace.head? = some (RegState.mk false false false) ∧
    regCleanupTrace.head? = some (RegState.mk true true true) := by
  refine ⟨by decide, by decide, by decide, by decide, by decide⟩

/-- Claim C4 (confirmed): the cleanup path of app.py lines 342-369 never
raises (every `del` is guarded by a membership test or wrapped in
`try/except`, and both filesystem removals are guarded by
`os.path.exists` inside a `try/except`), it is idempotent — running it a
second time on the resulting state changes nothing, so a race that
triggers it twice does not double-remove the workspace — and it emits no
completion event, so a second pass cannot double-emit `complete`. -/
theorem C4_cleanup_idempotent (s : ExecState) :
    cleanup s = .ok (cleanupRun s) ∧
    cleanupRun (cleanupRun s) = cleanupRun s ∧
    (cleanupRun s).completeEvents = s.completeEvents := by
  obtain ⟨p, q, f, a, fe, de, dr, n⟩ := s
  cases p <;> cases q <;> cases f <;> cases a <;> cases fe <;> cases de <;>
    cases dr <;> simp [cleanup, cleanupRun, delReg, tryDel]

/-- Claim C6 (confirmed): under both backends of app.py (docker requested
and available, docker requested but unavailable with local fallback, and
plain local) and in the aappp.py variant, the child's stdin is attached
as a pipe exactly when the needs-input flag is true, while stdout and
stderr are attached as pipes unconditionally. -/
theorem C6_pipe_attachment (dockerRequested dockerAvailable codeNeedsInput : Bool)
    (pkgs : List String) (tempDir tempFilename pyExe : String) :
    (buildLaunch dockerRequested dockerAvailable codeNeedsInput pkgs
        tempDir tempFilename pyExe).stdinPipe = codeNeedsInput ∧
    (buildLaunch dockerRequested dockerAvailable codeNeedsInput pkgs
        tempDir tempFilename pyExe).stdoutPipe = true ∧
    (buildLaunch dockerRequested dockerAvailable codeNeedsInput pkgs
        tempDir tempFilename pyExe).stderrPipe = true ∧
    (aappp_launch codeNeedsInput pyExe tempFilename).stdinPipe = codeNeedsInput ∧
    (aappp_launch codeNeedsInput pyExe tempFilename).stdoutPipe = true ∧
    (aappp_launch codeNeedsInput pyExe tempFilename).stderrPipe = true := by
  cases dockerRequested <;> cases dockerAvailable <;>
    simp [buildLaunch, aappp_launch]

/-- Pushing a line to one mailbox leaves every other mailbox unchanged. -/
theorem boxOf_pushBox_ne (qs : Mailboxes) (pid q line : String) (h : q ≠ pid) :
    boxOf (pushBox qs pid line) q = boxOf qs q := by
  induction qs with
  | nil => rfl
  | cons kv rest ih =>
    by_cases hk : kv.1 = pid
    · simp [pushBox, boxOf, hk, Ne.symm h]
    · simp [pushBox, boxOf, hk, ih]

/-- Pushing a line to a registered mailbox appends exactly that line at
the back of its FIFO. -/
theorem boxOf_pushBox_self (qs : Mailboxes) (pid line : String) :
    boxOf (pushBox qs pid line) pid = (boxOf qs pid).map fun b => b ++ [line] := by
  induction qs with
  | nil => rfl
  | cons kv rest ih =>
    by_cases hk : kv.1 = pid
    · simp [pushBox, boxOf, hk]
    · simp [pushBox, boxOf, hk, ih]

/-- Claim C7 (amended): with a truthy id and input line, a registered
mailbox gets the line appended and the feed branch of `/run_code` replies
status `input_sent` while `/provide_input` replies status `success` (not
`input_sent`); an unregistered id yields, from both endpoints, the soft
error response with message `Process not found or completed` (not
literally `process not found`) and leaves the mailboxes untouched. -/
theorem C7_feed_responses (qs : Mailboxes) (pid input : String)
    (hpid : pid ≠ "") (hin : input ≠ "") :
    if hasBox qs pid = true then
      (feedViaRunCode qs pid input).1
          = ⟨"input_sent", "Input sent to process"⟩ ∧
      (provide_input qs (some pid) input).1
          = ⟨"success", "Input sent to process"⟩ ∧
      (feedViaRunCode qs pid input).2 = pushBox qs pid (input ++ "\n") ∧
      (provide_input qs (some pid) input).2 = pushBox qs pid (input ++ "\n")
    else
      (feedViaRunCode qs pid input).1
          = ⟨"error", "Process not found or completed"⟩ ∧
      (provide_input qs (some pid) input).1
          = ⟨"error", "Process not found or completed"⟩ ∧
      (feedViaRunCode qs pid input).2 = qs ∧
      (provide_input qs (some pid) input).2 = qs := by
  by_cases hb : hasBox qs pid = true
  · simp [hb, feedViaRunCode, provide_input, hpid, hin]
  · simp [hb, feedViaRunCode, provide_input, hpid, hin]

/-- Witness for C7: one registered and one missing id, with concrete
mailboxes. -/
theorem C7_feed_responses_witness :
    (("p1" : String) ≠ "") ∧ (("5" : String) ≠ "") ∧
    (if hasBox ([("p1", [])]) ("p1") = true then
      (feedViaRunCode ([("p1", [])]) ("p1") ("5")).1
          = ⟨"input_sent", "Input sent to process"⟩ ∧
      (provide_input ([("p1", [])]) (some ("p1")) ("5")).1
          = ⟨"success", "Input sent to process"⟩ ∧
      (feedViaRunCode ([("p1", [])]) ("p1") ("5")).2
          = pushBox ([("p1", [])]) ("p1") ("5" ++ "\n") ∧
      (provide_input ([("p1", [])]) (some ("p1")) ("5")).2
          = pushBox ([("p1", [])]) ("p1") ("5" ++ "\n")
    else
      (feedViaRunCode ([("p1", [])]) ("p1") ("5")).1
          = ⟨"error", "Process not found or completed"⟩ ∧
      (provide_input ([("p1", [])]) (some ("p1")) ("5")).1
          = ⟨"error", "Process not found or completed"⟩ ∧
      (feedViaRunCode ([("p1", [])]) ("p1") ("5")).2 = [("p1", [])] ∧
      (provide_input ([("p1", [])]) (some ("p1")) ("5")).2 = [("p1", [])]) :=
  ⟨by decide, by decide,
    C7_feed_responses ([("p1", [])]) ("p1") ("5") (by decide) (by decide)⟩

/-- Counterexample for C7 as frozen: `/provide_input` on a registered id
replies status `success`, not `input_sent`, and the missing-id message is
`Process not found or completed`, not `process not found`. -/
theorem C7_counterexample :
    (provide_input ([("p1", [])]) (some ("p1")) ("5")).1.status = "success" ∧
    ("success" : String) ≠ "input_sent" ∧
    (feedViaRunCode ([]) ("p2") ("x")).1.message
        = "Process not found or completed" ∧
    ("Process not found or completed" : String) ≠ "process not found" := by
  refine ⟨by decide, by decide, by decide, by decide⟩

/-- Claim C8 (amended): app.py clamps the submitted `timeout_seconds`
into the fixed range 1..300 (values already in range pass through
unchanged) and defaults to 120 when the field is absent; the aappp.py
variant instead runs with a fixed 30-second timeout whatever the request
says. -/
theorem C8_timeout_clamping (t u : Int) (o : Option Int)
    (h1 : 1 ≤ t) (h2 : t ≤ 300) :
    effectiveTimeout (some t) = t ∧
    effectiveTimeout none = 120 ∧
    1 ≤ effectiveTimeout (some u) ∧
    effectiveTimeout (some u) ≤ 300 ∧
    aappp_effectiveTimeout o = 30 := by
  unfold effectiveTimeout aappp_effectiveTimeout
  refine ⟨?_, by decide, ?_, ?_, rfl⟩
  · simp only [Option.getD_some]; omega
  · simp only [Option.getD_some]; omega
  · simp only [Option.getD_some]; omega

/-- Witness for C8: an in-range submission of 42 seconds and an
out-of-range submission of 999 seconds. -/
theorem C8_timeout_clamping_witness :
    (1 : Int) ≤ 42 ∧ (42 : Int) ≤ 300 ∧
    (effectiveTimeout (some 42) = 42 ∧
     effectiveTimeout none = 120 ∧
     1 ≤ effectiveTimeout (some 999) ∧
     effectiveTimeout (some 999) ≤ 300 ∧
     aappp_effectiveTimeout (some 999) = 30) :=
  ⟨by decide, by decide,
    C8_timeout_clamping 42 999 (some 999) (by decide) (by decide)⟩

/-- Counterexample for C8 as frozen: the aappp.py handler's effective
timeout is 30 seconds — not approximately 120 — both when the request
omits the field and when it submits 200, which app.py's clamp would keep
at 200. -/
theorem C8_counterexample :
    aappp_effectiveTimeout none = 30 ∧
    effectiveTimeout none = 120 ∧
    ¬(100 ≤ aappp_effectiveTimeout none) ∧
    aappp_effectiveTimeout (some 200) = 30 ∧
    effectiveTimeout (some 200) = 200 := by
  refine ⟨rfl, by decide, by decide, rfl, by decide⟩

/-- Claim C9 (confirmed): a `/run_code` request carrying a truthy
`process_id` and a non-empty `user_input` is handled purely as an input
feed — the reply is the feed branch's reply, no execution is started and
no fresh id is consumed, the process and flag registries are untouched,
every mailbox other than the named one is unchanged, and the `code`
field is ignored (two requests differing only in `code` act
identically). -/
theorem C9_feed_frame (st : ServerState) (fresh : String)
    (req : RunCodeRequest) (q c1 c2 : String)
    (hpid : req.pid?.getD "" ≠ "") (hin : req.userInput ≠ "")
    (hq : q ≠ req.pid?.getD "") :
    (run_code st fresh req).1
        = .fed (feedViaRunCode st.queues (req.pid?.getD "") req.userInput).1 ∧
    (run_code st fresh req).2.procs = st.procs ∧
    (run_code st fresh req).2.flags = st.flags ∧
    (run_code st fresh req).2.queues
        = (feedViaRunCode st.queues (req.pid?.getD "") req.userInput).2 ∧
    boxOf (run_code st fresh req).2.queues q = boxOf st.queues q ∧
    run_code st fresh { req with code := c1 }
        = run_code st fresh { req with code := c2 } := by
  have hcond : req.pid?.getD "" ≠ "" ∧ req.userInput ≠ "" := ⟨hpid, hin⟩
  have hrun : run_code st fresh req
      = (.fed (feedViaRunCode st.queues (req.pid?.getD "") req.userInput).1,
         { st with
            queues := (feedViaRunCode st.queues (req.pid?.getD "") req.userInput).2 }) := by
    simp only [run_code, if_pos hcond]
  have hfr : boxOf (feedViaRunCode st.queues (req.pid?.getD "") req.userInput).2 q
      = boxOf st.queues q := by
    unfold feedViaRunCode
    by_cases hb : hasBox st.queues (req.pid?.getD "") = true
    · simp [hb, boxOf_pushBox_ne _ _ _ _ hq]
    · simp [hb]
  have hc1 : run_code st fresh { req with code := c1 }
      = (.fed (feedViaRunCode st.queues (req.pid?.getD "") req.userInput).1,
         { st with
            queues := (feedViaRunCode st.queues (req.pid?.getD "") req.userInput).2 }) := by
    simp only [run_code, if_pos hcond]
  have hc2 : run_code st fresh { req with code := c2 }
      = (.fed (feedViaRunCode st.queues (req.pid?.getD "") req.userInput).1,
         { st with
            queues := (feedViaRunCode st.queues (req.pid?.getD "") req.userInput).2 }) := by
    simp only [run_code, if_pos hcond]
  refine ⟨?_, ?_, ?_, ?_, ?_, ?_⟩
  · rw [hrun]
  · rw [hrun]
  · rw [hrun]
  · rw [hrun]
  · rw [hrun]; exact hfr
  · rw [hc1, hc2]

/-- Witness for C9: a concrete feed request against a one-entry registry. -/
theorem C9_feed_frame_witness :
    ((some ("p1") : Option String).getD "" ≠ "") ∧
    (("42" : String) ≠ "") ∧
    (("other" : String) ≠ (some ("p1") : Option String).getD "") ∧
    (run_code (ServerState.mk ([("p1", [])]) (["p1"]) ([("p1", true)])) ("f")
        (RunCodeRequest.mk ("print(1)") (some ("p1")) ("42") none false)).2.procs
      = ["p1"] :=
  ⟨by decide, by decide, by decide,
    (C9_feed_frame (ServerState.mk ([("p1", [])]) (["p1"]) ([("p1", true)]))
      ("f") (RunCodeRequest.mk ("print(1)") (some ("p1")) ("42") none false)
      ("other") ("c1") ("c2") (by decide) (by decide) (by decide)).2.1⟩

/-- Claim C10 (confirmed): `/provide_input` rejects a missing or empty
`process_id` and an empty `user_input` with an error reply and no queue
change; when it does enqueue, the registered mailbox receives exactly the
submitted non-empty string with one `"\n"` appended at the back, and in
the remaining case (unknown id) it replies an error and changes
nothing. -/
theorem C10_provide_input_validation (qs : Mailboxes) (pid? : Option String)
    (input : String) :
    if pid?.getD "" = "" ∨ input = "" then
      provide_input qs pid? input
          = (⟨"error", "Process ID and input are required"⟩, qs)
    else if hasBox qs (pid?.getD "") = true then
      (provide_input qs pid? input).2
          = pushBox qs (pid?.getD "") (input ++ "\n") ∧
      input ≠ "" ∧
      boxOf (provide_input qs pid? input).2 (pid?.getD "")
          = (boxOf qs (pid?.getD "")).map fun b => b ++ [input ++ "\n"]
    else
      (provide_input qs pid? input).1.status = "error" ∧
      (provide_input qs pid? input).2 = qs := by
  by_cases h1 : pid?.getD "" = "" ∨ input = ""
  · simp only [if_pos h1]
    simp [provide_input, h1]
  · simp only [if_neg h1]
    by_cases hb : hasBox qs (pid?.getD "") = true
    · simp only [if_pos hb]
      refine ⟨?_, fun hi => h1 (Or.inr hi), ?_⟩
      · simp [provide_input, h1, hb]
      · simp [provide_input, h1, hb, boxOf_pushBox_self]
    · simp only [if_neg hb]
      simp [provide_input, h1, hb]

end Sciam
